import Mathlib

/-!
Verification of the signalk-client-deno library (a Signal K marine-data
client) against its natural-language specification.  The definitions below
are a shallow embedding of the TypeScript sources:

* `src/signalk-client/utils.ts`        : `Path.dotToSlash`, `Path.contextToPath`
* `src/signalk-client/http-api.ts`     : `SignalKHttp` REST transport
* `src/signalk-client/stream-api.ts`   : `SignalKStream` streaming transport
* `src/signalk-client/signalk-client.ts` : `SignalKClient` orchestrator

JavaScript dynamic values are modelled by `JsValue`; platform primitives
(`JSON.parse`, `fetch`, `WebSocket`, `setTimeout`) are modelled as
parameters or explicit state, never re-implemented.
-/

namespace SignalKModel

/-- Model of a JavaScript/JSON value.  Numbers are modelled as integers
(the claims under study involve no fractional values); objects are
association lists with unique keys, which is what `JSON.parse` yields. -/
inductive JsValue where
  | null
  | bool (b : Bool)
  | num (n : Int)
  | str (s : String)
  | arr (elems : List JsValue)
  | obj (fields : List (String × JsValue))

/-- Reading field `k` of a JS value (`v.k`, or `v[k]`).  `none` models the
JavaScript result `undefined`: absent key on an object, or any property
access on a primitive (primitives auto-box and the fields used by this
library are never present on boxed primitives). -/
def getField : JsValue → String → Option JsValue
  | .obj fields, k => fields.lookup k
  | _, _ => none

/-- `typeof v.k != "undefined"`: field `k` is present. -/
def hasField (v : JsValue) (k : String) : Bool :=
  (getField v k).isSome

/-- Field access with `undefined` collapsed to `null`; used where the code
only tests truthiness or strict-compares against a non-null value, for
which `undefined` and `null` behave identically. -/
def getFieldD (v : JsValue) (k : String) : JsValue :=
  (getField v k).getD .null

/-- JavaScript truthiness of a value. -/
def jsTruthy : JsValue → Bool
  | .null => false
  | .bool b => b
  | .num n => n != 0
  | .str s => s != ""
  | .arr _ => true
  | .obj _ => true

/-- `typeof v === "object"` (true for objects, arrays and `null`). -/
def jsTypeofObject : JsValue → Bool
  | .obj _ => true
  | .arr _ => true
  | .null => true
  | _ => false

/-- JavaScript strict equality `===`.  Primitives compare by value.
Objects and arrays compare by reference in JavaScript; every such
comparison in the embedded code is between values originating from
distinct `JSON.parse` results or distinct object literals, which are never
reference-identical, so the object/object case is modelled as `false`. -/
def jsStrictEq : JsValue → JsValue → Bool
  | .null, .null => true
  | .bool a, .bool b => a == b
  | .num a, .num b => a == b
  | .str a, .str b => a == b
  | _, _ => false

/-- Substring search over character lists: true when `pat` occurs in `l`. -/
def strContainsAux (pat : List Char) : List Char → Bool
  | [] => pat.isPrefixOf ([] : List Char)
  | c :: t => if pat.isPrefixOf (c :: t) then true else strContainsAux pat t

/-- `s.indexOf(pat) != -1`: `s` contains `pat` as a substring. -/
def strContains (s pat : String) : Bool :=
  strContainsAux pat.data s.data

/-! ## utils.ts : Path -/

/-- `split(".").join("/")` on a single-character separator is exactly the
replacement of every '.' by '/'. -/
def dotsToSlashes (l : List Char) : List Char :=
  l.map (fun c => if c == '.' then '/' else c)

/-- Break a character list at the first '?': the JavaScript idiom
`p = s.split("?") ... p.join("?")` transforms only `p[0]`, the portion
before the first '?', and reattaches the remainder (all later '?'
included) unchanged. -/
def breakAtQuery : List Char → List Char × List Char
  | [] => ([], [])
  | c :: t =>
    if c == '?' then ([], c :: t)
    else
      let r := breakAtQuery t
      (c :: r.1, r.2)

/-- `Path.dotToSlash` (utils.ts:17-23): split off a query-string suffix at
the first "?", replace "." with "/" in the path portion only when a dot is
present, reattach the suffix unchanged. -/
def dotToSlash (path : String) : String :=
  let q := breakAtQuery path.data
  let h2 := if q.1.contains '.' then dotsToSlashes q.1 else q.1
  ⟨h2 ++ q.2⟩

/-- `Path.contextToPath` (utils.ts:29-32): map the literal "self" to
"vessels.self", then dot-to-slash the whole string (no query handling). -/
def contextToPath (context : String) : String :=
  let res := if context == "self" then "vessels.self" else context
  ⟨dotsToSlashes res.data⟩

/-! ## http-api.ts : SignalKHttp -/

/-- Signal K server identity (`SKServer` in signalk-client.ts). -/
structure SKServer where
  version : String
  id : String
deriving DecidableEq

/-- State of the REST transport `SignalKHttp` (http-api.ts:6-28). -/
structure SignalKHttp where
  /-- `_token`, the bearer token ("" when unauthenticated). -/
  token : String
  /-- `server` info block. -/
  server : SKServer
  /-- `endpoint`, the resolved base URL ("" when unconfigured). -/
  endpoint : String
  /-- `version`, the API major version in use. -/
  version : Nat
deriving DecidableEq

/-- Initial `SignalKHttp` state (field initialisers, http-api.ts:10-17). -/
def SignalKHttp.init : SignalKHttp :=
  { token := "", server := { version := "", id := "" }, endpoint := "", version := 1 }

/-- HTTP method of an issued request. -/
inductive HttpMethod where
  | get
  | put
  | post
  | delete
deriving DecidableEq

/-- A network request issued through the platform `fetch`: the URL, the
method, the JSON body passed to `JSON.stringify` (none when the request
has no body), and the `Authorization` header value when a token is set. -/
structure FetchCall where
  url : String
  method : HttpMethod
  body : Option JsValue
  auth : Option String

/-- Replace the first occurrence of the pattern `/v[0-9]+/` in a character
list by the replacement `rep` (which stands for the whole matched region).
Models `String.replace(new RegExp("/v[0-9]+/"), ...)` used by the
version-override forms of the REST operations. -/
def replaceVSegAux (rep : List Char) : List Char → Option (List Char)
  | '/' :: 'v' :: rest =>
    let ds := rest.takeWhile Char.isDigit
    let rest2 := rest.dropWhile Char.isDigit
    match ds, rest2 with
    | _ :: _, '/' :: tail => some (rep ++ '/' :: tail)
    | _, _ =>
      match replaceVSegAux rep ('v' :: rest) with
      | some r => some ('/' :: r)
      | none => none
  | c :: rest =>
    match replaceVSegAux rep rest with
    | some r => some (c :: r)
    | none => none
  | [] => none
termination_by l => l.length

/-- `endpoint.replace(new RegExp("/v[0-9]+/"), "/v" + n + "/")`: substitute
the version segment of the base URL; the original string is returned when
no version segment occurs. -/
def replaceVersionSeg (s : String) (n : Nat) : String :=
  match replaceVSegAux ("/v" ++ Nat.repr n).data s.data with
  | some l => ⟨l⟩
  | none => s

/-- Strip a single leading slash: `if (path[0] === "/") path = path.slice(1)`. -/
def stripLeadingSlash (p : String) : String :=
  match p.data with
  | '/' :: rest => ⟨rest⟩
  | _ => p

/-- The `Authorization: JWT <token>` header attached when a token is set. -/
def authHeader (token : String) : Option String :=
  if token != "" then some ("JWT " ++ token) else none

/-- `SignalKHttp.parseApiPut` (http-api.ts:90-96): for API versions above 1
the value is sent raw; for version 1 (and below) it is wrapped in
`{value: ...}`. -/
def parseApiPut (version : Nat) (value : JsValue) : JsValue :=
  if version > 1 then value else .obj [("value", value)]

/-- `SignalKHttp.get` (http-api.ts:59-84).  `versionOv = some n` models the
overload whose first argument is a number (a version override).  Result
`none` models the guarded early `return` (the promise resolves to
`undefined` and no `fetch` is issued). -/
def SignalKHttp.get (st : SignalKHttp) (versionOv : Option Nat) (path : String) :
    Option FetchCall :=
  if st.endpoint = "" then none
  else
    let ep := match versionOv with
      | some n => replaceVersionSeg st.endpoint n
      | none => st.endpoint
    let p := stripLeadingSlash (dotToSlash path)
    some { url := ep ++ p, method := .get, body := none, auth := authHeader st.token }

/-- `SignalKHttp.put` (http-api.ts:109-145): the body is
`parseApiPut(effectiveVersion, value)` where the effective version is the
override when supplied, else the transport's `version` field. -/
def SignalKHttp.put (st : SignalKHttp) (versionOv : Option Nat) (path : String)
    (value : JsValue) : Option FetchCall :=
  if st.endpoint = "" then none
  else
    let ep := match versionOv with
      | some n => replaceVersionSeg st.endpoint n
      | none => st.endpoint
    let msg := match versionOv with
      | some n => parseApiPut n value
      | none => parseApiPut st.version value
    let p := stripLeadingSlash (dotToSlash path)
    some { url := ep ++ p, method := .put, body := some msg, auth := authHeader st.token }

/-- `SignalKHttp.putWithContext` (http-api.ts:170-209): like `put` with a
context segment (`contextToPath(context) + "/"` when the context string is
truthy) inserted between the endpoint and the path. -/
def SignalKHttp.putWithContext (st : SignalKHttp) (versionOv : Option Nat)
    (context path : String) (value : JsValue) : Option FetchCall :=
  if st.endpoint = "" then none
  else
    let ep := match versionOv with
      | some n => replaceVersionSeg st.endpoint n
      | none => st.endpoint
    let ctx := if context != "" then contextToPath context ++ "/" else ""
    let msg := match versionOv with
      | some n => parseApiPut n value
      | none => parseApiPut st.version value
    let p := stripLeadingSlash (dotToSlash path)
    some { url := ep ++ ctx ++ p, method := .put, body := some msg,
           auth := authHeader st.token }

/-- `SignalKHttp.post` (http-api.ts:222-254): the value is sent raw. -/
def SignalKHttp.post (st : SignalKHttp) (versionOv : Option Nat) (path : String)
    (value : JsValue) : Option FetchCall :=
  if st.endpoint = "" then none
  else
    let ep := match versionOv with
      | some n => replaceVersionSeg st.endpoint n
      | none => st.endpoint
    let p := stripLeadingSlash (dotToSlash path)
    some { url := ep ++ p, method := .post, body := some value,
           auth := authHeader st.token }

/-- `SignalKHttp.delete` (http-api.ts:265-293): DELETE with no body. -/
def SignalKHttp.delete (st : SignalKHttp) (versionOv : Option Nat) (path : String) :
    Option FetchCall :=
  if st.endpoint = "" then none
  else
    let ep := match versionOv with
      | some n => replaceVersionSeg st.endpoint n
      | none => st.endpoint
    let p := stripLeadingSlash (dotToSlash path)
    some { url := ep ++ p, method := .delete, body := none, auth := authHeader st.token }

/-! ## stream-api.ts : SignalKStream -/

/-- A WebSocket handle, reduced to its observable `readyState`
(0 = CONNECTING, 1 = OPEN, 2 = CLOSING, 3 = CLOSED). -/
structure WsSocket where
  readyState : Nat
deriving DecidableEq

/-- State of the streaming transport `SignalKStream` (stream-api.ts:6-46).
`ws = none` models the `undefined` socket handle.  The TypeScript fields
`_filter`, `_token` and `selfId` are declared as strings but receive
values taken directly from parsed frames (`data.self`, `data.login.token`),
so they are modelled as `JsValue` (initially the empty string). -/
structure SignalKStream where
  ws : Option WsSocket
  /-- `_filter`: id of vessel whose delta messages are let through. -/
  filter : JsValue
  /-- `_wsTimeout`: watchdog delay in milliseconds. -/
  wsTimeout : Int
  /-- `_token`: authentication token. -/
  token : JsValue
  /-- `_playbackMode`. -/
  playbackMode : Bool
  /-- `version`: API version to use. -/
  version : Nat
  /-- `endpoint`: connection endpoint URL. -/
  endpoint : String
  /-- `selfId`: self identifier captured from the Hello frame. -/
  selfId : JsValue

/-- Initial `SignalKStream` state (field initialisers, stream-api.ts:9-46). -/
def SignalKStream.init : SignalKStream :=
  { ws := none, filter := .str "", wsTimeout := 20000, token := .str "",
    playbackMode := false, version := 1, endpoint := "", selfId := .str "" }

/-- Events emitted on the stream's broadcast event channel. -/
inductive StreamEvent where
  | message (data : JsValue)
  | connectEv
  | closeEv
  | errorEv

/-- `connectionTimeout` setter (stream-api.ts:78-80): clamp to
[3000, 60000]. -/
def SignalKStream.setConnectionTimeout (st : SignalKStream) (val : Int) : SignalKStream :=
  { st with wsTimeout := if val < 3000 then 3000 else if val > 60000 then 60000 else val }

/-- `isOpen` getter (stream-api.ts:83-87):
`this.ws && this.ws.readyState != 1 && this.ws.readyState != 3 ? true : false`. -/
def SignalKStream.isOpen (st : SignalKStream) : Bool :=
  match st.ws with
  | some w => (w.readyState != 1) && (w.readyState != 3)
  | none => false

/-- `filter` setter (stream-api.ts:95-101): an id containing the substring
"self" resolves to the current `selfId` (empty string when falsy); any
other id is stored literally. -/
def SignalKStream.setFilter (st : SignalKStream) (id : String) : SignalKStream :=
  if (id != "") && strContains id "self" then
    { st with filter := if jsTruthy st.selfId then st.selfId else .str "" }
  else
    { st with filter := .str id }

/-- `close` (stream-api.ts:123-128): close and discard the socket handle
(the underlying `ws.close()` call is a platform effect). -/
def SignalKStream.close (st : SignalKStream) : SignalKStream :=
  match st.ws with
  | some _ => { st with ws := none }
  | none => st

/-- The connection-watchdog callback armed by `open` (stream-api.ts:151-160),
applied to the stream state current when the timer fires.  Returns the new
state and whether a forced close (with its warning) occurred: the socket is
aborted only when a handle exists whose `readyState` is neither 1 (OPEN)
nor 3 (CLOSED). -/
def SignalKStream.watchdogFire (st : SignalKStream) : SignalKStream × Bool :=
  match st.ws with
  | some w =>
    if (w.readyState != 1) && (w.readyState != 3) then (st.close, true)
    else (st, false)
  | none => (st, false)

/-- `isDelta` (stream-api.ts:447-449): a `context` field is present. -/
def SignalKStream.isDelta (msg : JsValue) : Bool :=
  hasField msg "context"

/-- `isHello` (stream-api.ts:454-456): both `version` and `self` present. -/
def SignalKStream.isHello (msg : JsValue) : Bool :=
  hasField msg "version" && hasField msg "self"

/-- `isResponse` (stream-api.ts:461-463): a `requestId` field is present. -/
def SignalKStream.isResponse (msg : JsValue) : Bool :=
  hasField msg "requestId"

/-- `parseOnMessage` (stream-api.ts:179-206) for a string frame.
`jsonParse` stands for the platform `JSON.parse`, returning `none` on a
syntax error (the `catch` branch returns silently).  The result is the
updated stream state and the list of events emitted. -/
def SignalKStream.parseOnMessage (jsonParse : String → Option JsValue)
    (st : SignalKStream) (frame : String) : SignalKStream × List StreamEvent :=
  match jsonParse frame with
  | none => (st, [])
  | some data =>
    if SignalKStream.isHello data then
      ({ st with selfId := getFieldD data "self",
                 playbackMode := hasField data "startTime" },
       [.message data])
    else if SignalKStream.isResponse data then
      let st2 := match getField data "login" with
        | some login =>
          match getField login "token" with
          | some tok => { st with token := tok }
          | none => st
        | none => st
      (st2, [.message data])
    else if jsTruthy st.filter && SignalKStream.isDelta data then
      if jsStrictEq (getFieldD data "context") st.filter then (st, [.message data])
      else (st, [])
    else
      (st, [.message data])

/-- One subscription entry built by `subscribe` for a single string path
with an options object (stream-api.ts:346-371).  Each validated option is
appended in source order; per the source, the guard for `minPeriod` reads
`options["minPeriod"]` but the assigned value is `options["period"]` — when
`period` is absent the assignment stores `undefined`, which
`JSON.stringify` omits from the wire, modelled by omitting the key. -/
def subscribeSingleEntry (path : String) (options : Option JsValue) : JsValue :=
  let base := [("path", JsValue.str path)]
  match options with
  | some o =>
    if jsTruthy o && jsTypeofObject o then
      .obj (base
        ++ (if jsTruthy (getFieldD o "period")
            then [("period", getFieldD o "period")] else [])
        ++ (if jsTruthy (getFieldD o "minPeriod")
            then
              match getField o "period" with
              | some pv => [("minPeriod", pv)]
              | none => []
            else [])
        ++ (if jsTruthy (getFieldD o "format") &&
               (jsStrictEq (getFieldD o "format") (.str "delta") ||
                jsStrictEq (getFieldD o "format") (.str "full"))
            then [("format", getFieldD o "format")] else [])
        ++ (if jsTruthy (getFieldD o "policy") &&
               (jsStrictEq (getFieldD o "policy") (.str "instant") ||
                jsStrictEq (getFieldD o "policy") (.str "ideal") ||
                jsStrictEq (getFieldD o "policy") (.str "fixed"))
            then [("policy", getFieldD o "policy")] else []))
    else .obj base
  | none => .obj base

/-- The full SUBSCRIBE message sent by `subscribe` for a single string path
(stream-api.ts:329-374): the skeleton `{context: null, subscribe: []}`
with context substituted ("self" maps to "vessels.self"), the single entry
pushed, and the token attached when truthy. -/
def SignalKStream.subscribeSingle (st : SignalKStream) (context path : String)
    (options : Option JsValue) : JsValue :=
  .obj ([("context", if context == "self" then JsValue.str "vessels.self"
                     else JsValue.str context),
         ("subscribe", JsValue.arr [subscribeSingleEntry path options])]
        ++ (if jsTruthy st.token then [("token", st.token)] else []))

/-! ## signalk-client.ts : SignalKClient -/

/-- An advertised endpoint descriptor (`EndPoint` in signalk-client.ts:13-17).
`signalkHttp` and `signalkWs` model the "signalk-http" and "signalk-ws"
fields. -/
structure EndPoint where
  version : String
  signalkHttp : String
  signalkWs : String
deriving DecidableEq

/-- `Server_Info` (signalk-client.ts:7-11): the discovered capability
record.  The endpoints object is an association list from version label
("v1", "v2", ...) to endpoint descriptor. -/
structure ServerInfo where
  endpoints : List (String × EndPoint)
  info : SKServer
  apiVersions : List String
deriving DecidableEq

/-- `endpoints[label]` lookup. -/
def lookupEndpoint (eps : List (String × EndPoint)) (label : String) : Option EndPoint :=
  eps.lookup label

/-- State of the `SignalKClient` orchestrator (signalk-client.ts:49-164)
restricted to the fields the verified operations touch.  `api` and
`stream` are the owned transports the setters fan out to. -/
structure SignalKClient where
  /-- `_version`: selected version label, initially "v1". -/
  versionLabel : String
  /-- `_token`. -/
  token : String
  /-- `server` information block. -/
  server : ServerInfo
  /-- `fallback` flag. -/
  fallback : Bool
  /-- `proxied` flag. -/
  proxied : Bool
  /-- `api`: the owned REST transport. -/
  api : SignalKHttp
  /-- `stream`: the owned streaming transport. -/
  stream : SignalKStream

/-- Initial `SignalKClient` state (constructor + field initialisers). -/
def SignalKClient.init : SignalKClient :=
  { versionLabel := "v1", token := "",
    server := { endpoints := [], info := { version := "", id := "" }, apiVersions := [] },
    fallback := false, proxied := false,
    api := SignalKHttp.init, stream := SignalKStream.init }

/-- The `version` setter (signalk-client.ts:113-126).  The source builds
`v = "v" + val`, accepts it unconditionally while `server.apiVersions` is
empty, otherwise only when `apiVersions.includes(v)`, then assigns
`parseInt(v.slice(1))` to both transports.  For a natural number `val`,
`("v" + String(val)).slice(1)` is `String(val)` and `parseInt` of the
decimal representation of `val` is `val`, so both transports receive
`val` itself — note this is the requested number even when the label was
rejected. -/
def SignalKClient.setVersion (st : SignalKClient) (val : Nat) : SignalKClient :=
  let v := "v" ++ Nat.repr val
  let newLabel :=
    if st.server.apiVersions = [] then v
    else if v ∈ st.server.apiVersions then v else st.versionLabel
  { st with versionLabel := newLabel,
            api := { st.api with version := val },
            stream := { st.stream with version := val } }

/-- `resolveHttpEndpoint` (signalk-client.ts:412-428).  `url` starts as ""
and is returned unchanged when the selected label has no entry (only a
debug message is printed).  When the label's entry exists its
"signalk-http" value is used if truthy; otherwise the source reads
`endpoints["v1"]["signalk-http"]` unguarded — `none` models the TypeError
thrown when no "v1" entry exists. -/
def SignalKClient.resolveHttpEndpoint (st : SignalKClient) : Option String :=
  match lookupEndpoint st.server.endpoints st.versionLabel with
  | some ep =>
    if ep.signalkHttp != "" then some ep.signalkHttp
    else
      match lookupEndpoint st.server.endpoints "v1" with
      | some ep1 => some ep1.signalkHttp
      | none => none
  | none => some ""

/-- `resolveStreamEndpoint` (signalk-client.ts:393-409): the selected
label's "signalk-ws" when present and truthy, else the "v1" entry's
"signalk-ws" when present and truthy, else "". -/
def SignalKClient.resolveStreamEndpoint (st : SignalKClient) : String :=
  match lookupEndpoint st.server.endpoints st.versionLabel with
  | some ep =>
    if ep.signalkWs != "" then ep.signalkWs
    else
      match lookupEndpoint st.server.endpoints "v1" with
      | some ep1 => if ep1.signalkWs != "" then ep1.signalkWs else ""
      | none => ""
  | none =>
    match lookupEndpoint st.server.endpoints "v1" with
    | some ep1 => if ep1.signalkWs != "" then ep1.signalkWs else ""
    | none => ""

/-- The HTTP endpoint resolution rule as the specification words it
(claim-side definition, for comparison with the source-side
`SignalKClient.resolveHttpEndpoint`): prefer the endpoint advertised under
the currently selected version label; if that label is absent fall back to
the endpoint advertised under version "1"; if that too is absent yield the
empty string. -/
def resolveHttpEndpointSpec (st : SignalKClient) : String :=
  match lookupEndpoint st.server.endpoints st.versionLabel with
  | some ep => ep.signalkHttp
  | none =>
    match lookupEndpoint st.server.endpoints "v1" with
    | some ep1 => ep1.signalkHttp
    | none => ""

/-! ## Concrete states used by counterexamples and witnesses -/

/-- A server-info state whose only advertised endpoint is under "v1" while
the selected version label is "v2". -/
def c2State : SignalKClient :=
  { SignalKClient.init with
      versionLabel := "v2",
      server := { endpoints := [("v1",
                    { version := "1.43.0",
                      signalkHttp := "http://host:3000/signalk/v1/api/",
                      signalkWs := "ws://host:3000/signalk/v1/stream" })],
                  info := { version := "1.43.0", id := "signalk-server-node" },
                  apiVersions := ["v1"] } }

/-- A parsed Hello frame that also carries a `context` field. -/
def c1Hello : JsValue :=
  .obj [("version", .str "1.43.0"),
        ("self", .str "vessels.urn:mrn:signalk:uuid:a"),
        ("context", .str "vessels.urn:mrn:signalk:uuid:b")]

/-- A parsed delta frame: a `context` field, no `version`/`self`, no
`requestId`. -/
def c6Delta : JsValue :=
  .obj [("context", .str "vessels.urn:mrn:signalk:uuid:b"),
        ("updates", .arr [])]

/-- Options object of period 200 and minPeriod 100 for the subscribe bug. -/
def c8Options : JsValue :=
  .obj [("period", .num 200), ("minPeriod", .num 100)]

/-- The subscription entry the source builds from path
"navigation.speedOverGround" and `c8Options`. -/
def c8Entry : JsValue :=
  subscribeSingleEntry "navigation.speedOverGround" (some c8Options)

/-! ## Theorems -/

/-- Wrapping a value in a one-field object never returns the value itself
(size strictly grows). -/
theorem obj_value_ne (v : JsValue) : JsValue.obj [("value", v)] ≠ v := by
  intro h
  have hs := congrArg sizeOf h
  simp at hs
  omega

/-- C10: `isOpen` is true exactly when a socket handle exists whose
`readyState` is neither 1 (OPEN) nor 3 (CLOSED); in particular it is false
for an OPEN socket, true for a CONNECTING (0) or CLOSING (2) socket, and
false after `close()` discards the handle. -/
theorem isOpen_characterisation (st : SignalKStream) :
    (∀ w, st.ws = some w → (st.isOpen = true ↔ (w.readyState ≠ 1 ∧ w.readyState ≠ 3)))
    ∧ (st.ws = none → st.isOpen = false)
    ∧ (∀ w, st.ws = some w → w.readyState = 1 → st.isOpen = false)
    ∧ (∀ w, st.ws = some w → (w.readyState = 0 ∨ w.readyState = 2) → st.isOpen = true)
    ∧ st.close.isOpen = false := by
  refine ⟨?_, ?_, ?_, ?_, ?_⟩
  · intro w hw
    simp [SignalKStream.isOpen, hw]
  · intro hw
    simp [SignalKStream.isOpen, hw]
  · intro w hw h1
    simp [SignalKStream.isOpen, hw, h1]
  · intro w hw h02
    rcases h02 with h | h <;> simp [SignalKStream.isOpen, hw, h]
  · cases hw : st.ws <;> simp [SignalKStream.close, SignalKStream.isOpen, hw]

/-- Witness for C10 at a concrete CONNECTING socket. -/
theorem isOpen_characterisation_witness :
    ({ SignalKStream.init with ws := some { readyState := 0 } } : SignalKStream).isOpen
      = true :=
  (isOpen_characterisation _).2.2.2.1 { readyState := 0 } rfl (Or.inl rfl)

/-- C9: when the watchdog fires on a stream whose socket has reached the
Open state (readyState 1) or has already closed (readyState 3, or the
handle was discarded), it performs no close; it forcibly closes the
connection (returning the warning flag) only when the socket is still
neither open nor closed at expiry. -/
theorem watchdog_guard (st : SignalKStream) :
    (∀ w, st.ws = some w → (w.readyState = 1 ∨ w.readyState = 3) →
        st.watchdogFire = (st, false))
    ∧ (st.ws = none → st.watchdogFire = (st, false))
    ∧ (∀ w, st.ws = some w → w.readyState ≠ 1 → w.readyState ≠ 3 →
        st.watchdogFire = (st.close, true) ∧ st.close.ws = none) := by
  refine ⟨?_, ?_, ?_⟩
  · intro w hw h13
    rcases h13 with h | h <;> simp [SignalKStream.watchdogFire, hw, h]
  · intro hw
    simp [SignalKStream.watchdogFire, hw]
  · intro w hw h1 h3
    simp [SignalKStream.watchdogFire, SignalKStream.close, hw, h1, h3]

/-- Witness for C9: the watchdog leaves an OPEN socket untouched. -/
theorem watchdog_guard_witness :
    ({ SignalKStream.init with ws := some { readyState := 1 } } : SignalKStream).watchdogFire
      = ({ SignalKStream.init with ws := some { readyState := 1 } }, false) :=
  (watchdog_guard _).1 { readyState := 1 } rfl (Or.inl rfl)

/-- C5: a string frame that fails JSON parsing makes `parseOnMessage`
return silently: no event of any kind is emitted and the stream state
(selfId, playbackMode, filter, token, ...) is unchanged. -/
theorem malformed_frame_dropped (jsonParse : String → Option JsValue)
    (st : SignalKStream) (frame : String) (h : jsonParse frame = none) :
    SignalKStream.parseOnMessage jsonParse st frame = (st, []) := by
  simp [SignalKStream.parseOnMessage, h]

/-- Witness for C5 at a concrete malformed frame. -/
theorem malformed_frame_dropped_witness :
    SignalKStream.parseOnMessage (fun _ => none) SignalKStream.init "not json"
      = (SignalKStream.init, []) :=
  malformed_frame_dropped (fun _ => none) SignalKStream.init "not json" rfl

/-- C1: a parsed frame with both `version` and `self` fields is classified
as Hello regardless of any `context` field: `selfId` is set to the frame's
`self` value, `playbackMode` becomes true exactly when `startTime` is
present, and a message event is emitted unconditionally (the delta filter
is never consulted).  A non-Hello frame with a `requestId` field likewise
emits its message event regardless of context or filter. -/
theorem hello_response_priority (jsonParse : String → Option JsValue)
    (st : SignalKStream) (frame : String) (data : JsValue)
    (hp : jsonParse frame = some data) :
    (hasField data "version" = true → hasField data "self" = true →
      SignalKStream.parseOnMessage jsonParse st frame =
        ({ st with selfId := getFieldD data "self",
                   playbackMode := hasField data "startTime" },
         [StreamEvent.message data]))
    ∧ (SignalKStream.isHello data = false → hasField data "requestId" = true →
        (SignalKStream.parseOnMessage jsonParse st frame).2 = [StreamEvent.message data]) := by
  constructor
  · intro hv hs
    simp [SignalKStream.parseOnMessage, hp, SignalKStream.isHello, hv, hs]
  · intro hnh hr
    simp [SignalKStream.parseOnMessage, hp, hnh, SignalKStream.isResponse, hr]

/-- Witness for C1: a Hello frame carrying a `context` field is treated as
Hello. -/
theorem hello_response_priority_witness :
    SignalKStream.parseOnMessage (fun _ => some c1Hello) SignalKStream.init "f" =
      ({ SignalKStream.init with selfId := getFieldD c1Hello "self",
                                 playbackMode := hasField c1Hello "startTime" },
       [StreamEvent.message c1Hello]) :=
  (hello_response_priority (fun _ => some c1Hello) SignalKStream.init "f" c1Hello rfl).1
    rfl rfl

/-- C6: setting the filter to a string containing "self" stores the current
`selfId` (the empty string while no Hello has been received, `selfId` being
falsy then); any other non-empty string is stored literally.  For a parsed
delta frame (a `context` field, neither Hello nor Response): with the empty
filter the message event is emitted unconditionally, and with a non-empty
filter it is emitted exactly when the frame's `context` strictly equals the
filter value. -/
theorem filter_semantics (jsonParse : String → Option JsValue)
    (st : SignalKStream) (frame : String) (data : JsValue) :
    (∀ id : String, strContains id "self" = true →
      st.setFilter id =
        { st with filter := if jsTruthy st.selfId then st.selfId else .str "" })
    ∧ (∀ id : String, id ≠ "" → strContains id "self" = false →
      st.setFilter id = { st with filter := .str id })
    ∧ (jsonParse frame = some data → SignalKStream.isHello data = false →
       SignalKStream.isResponse data = false → hasField data "context" = true →
       ((st.filter = .str "" →
           SignalKStream.parseOnMessage jsonParse st frame
             = (st, [StreamEvent.message data]))
        ∧ (∀ s : String, s ≠ "" → st.filter = .str s →
            (SignalKStream.parseOnMessage jsonParse st frame).2 =
              if jsStrictEq (getFieldD data "context") (.str s) then
                [StreamEvent.message data]
              else []))) := by
  refine ⟨?_, ?_, ?_⟩
  · intro id hc
    have hne : id ≠ "" := by
      intro h
      rw [h] at hc
      exact absurd hc (by decide)
    simp [SignalKStream.setFilter, hc, hne]
  · intro id hne hc
    simp [SignalKStream.setFilter, hc]
  · intro hp hnh hnr hctx
    constructor
    · intro hf
      simp [SignalKStream.parseOnMessage, hp, hnh, hnr, hf, jsTruthy]
    · intro s hs hf
      simp [SignalKStream.parseOnMessage, hp, hnh, hnr, hf, jsTruthy, hs,
            SignalKStream.isDelta, hctx]
      split <;> simp

/-- Witness for C6: setting the filter to "self" before any Hello yields
the empty filter, and a delta frame then passes unconditionally. -/
theorem filter_semantics_witness :
    SignalKStream.init.setFilter "self"
      = { SignalKStream.init with filter := .str "" }
    ∧ SignalKStream.parseOnMessage (fun _ => some c6Delta) SignalKStream.init "f"
      = (SignalKStream.init, [StreamEvent.message c6Delta]) := by
  constructor
  · have h := (filter_semantics (fun _ => some c6Delta) SignalKStream.init "f" c6Delta).1
      "self" (by decide)
    simpa using h
  · exact ((filter_semantics (fun _ => some c6Delta) SignalKStream.init "f" c6Delta).2.2
      rfl rfl rfl rfl).1 rfl

/-- C4: every REST operation resolves to nothing, issuing no network
request, when the endpoint field is the empty string. -/
theorem no_endpoint_noop (st : SignalKHttp) (vo : Option Nat) (ctx p : String)
    (v : JsValue) (h : st.endpoint = "") :
    st.get vo p = none ∧ st.put vo p v = none
    ∧ st.putWithContext vo ctx p v = none
    ∧ st.post vo p v = none ∧ st.delete vo p = none := by
  refine ⟨?_, ?_, ?_, ?_, ?_⟩ <;>
    simp [SignalKHttp.get, SignalKHttp.put, SignalKHttp.putWithContext,
          SignalKHttp.post, SignalKHttp.delete, h]

/-- Witness for C4 at the initial (unconfigured) transport state. -/
theorem no_endpoint_noop_witness :
    SignalKHttp.init.get none "vessels.self" = none
    ∧ SignalKHttp.init.put none "vessels.self" JsValue.null = none
    ∧ SignalKHttp.init.putWithContext none "self" "vessels.self" JsValue.null = none
    ∧ SignalKHttp.init.post none "vessels.self" JsValue.null = none
    ∧ SignalKHttp.init.delete none "vessels.self" = none :=
  no_endpoint_noop SignalKHttp.init none "self" "vessels.self" JsValue.null rfl

/-- C3: with a configured endpoint, `put` and `putWithContext` send the
body `{value: v}` when the effective API major version is 1, and send the
raw value `v` when the effective version is 2 or greater (whether the
version comes from the transport state or from an explicit override); the
two wire bodies are always distinct. -/
theorem put_wire_format (st : SignalKHttp) (ctx p : String) (v : JsValue)
    (hep : st.endpoint ≠ "") :
    (st.version = 1 →
        (st.put none p v).map FetchCall.body
          = some (some (JsValue.obj [("value", v)]))
      ∧ (st.putWithContext none ctx p v).map FetchCall.body
          = some (some (JsValue.obj [("value", v)])))
    ∧ (2 ≤ st.version →
        (st.put none p v).map FetchCall.body = some (some v)
      ∧ (st.putWithContext none ctx p v).map FetchCall.body = some (some v))
    ∧ ((st.put (some 1) p v).map FetchCall.body
          = some (some (JsValue.obj [("value", v)]))
      ∧ (st.putWithContext (some 1) ctx p v).map FetchCall.body
          = some (some (JsValue.obj [("value", v)])))
    ∧ (∀ n : Nat, 2 ≤ n →
        (st.put (some n) p v).map FetchCall.body = some (some v)
      ∧ (st.putWithContext (some n) ctx p v).map FetchCall.body = some (some v))
    ∧ (∀ n : Nat, 2 ≤ n → parseApiPut 1 v ≠ parseApiPut n v) := by
  refine ⟨?_, ?_, ?_, ?_, ?_⟩
  · intro h1
    constructor <;>
      simp [SignalKHttp.put, SignalKHttp.putWithContext, hep, parseApiPut, h1]
  · intro h2
    have hgt : st.version > 1 := h2
    constructor <;>
      simp [SignalKHttp.put, SignalKHttp.putWithContext, hep, parseApiPut, hgt]
  · constructor <;>
      simp [SignalKHttp.put, SignalKHttp.putWithContext, hep, parseApiPut]
  · intro n hn
    have hgt : n > 1 := hn
    constructor <;>
      simp [SignalKHttp.put, SignalKHttp.putWithContext, hep, parseApiPut, hgt]
  · intro n hn hcontra
    have h1 : parseApiPut 1 v = JsValue.obj [("value", v)] := by
      simp [parseApiPut]
    have h2 : parseApiPut n v = v := by
      have hgt : n > 1 := hn
      simp [parseApiPut, hgt]
    rw [h1, h2] at hcontra
    exact obj_value_ne v hcontra

/-- Witness for C3: the same value, sent at version 1 and at version 2
against a configured endpoint, yields the wrapped and the raw body. -/
theorem put_wire_format_witness :
    ((({ SignalKHttp.init with endpoint := "http://host:3000/signalk/v1/api/" }
        : SignalKHttp).put (some 1) "navigation.speedOverGround"
          (JsValue.num 5)).map FetchCall.body
      = some (some (JsValue.obj [("value", JsValue.num 5)])))
    ∧ ((({ SignalKHttp.init with endpoint := "http://host:3000/signalk/v1/api/" }
        : SignalKHttp).put (some 2) "navigation.speedOverGround"
          (JsValue.num 5)).map FetchCall.body
      = some (some (JsValue.num 5))) := by
  constructor
  · exact (put_wire_format _ "self" "navigation.speedOverGround" (JsValue.num 5)
      (by decide)).2.2.1.1
  · exact ((put_wire_format _ "self" "navigation.speedOverGround" (JsValue.num 5)
      (by decide)).2.2.2.1 2 (by decide)).1

/-- C7: the `version` setter accepts the requested major version `n`
unconditionally while the advertised `apiVersions` list is empty; when the
list is non-empty and does not contain the label "v" + `n` the previously
selected label is retained; and in every case both the REST and the stream
transport receive the requested number `n` as part of the same
assignment. -/
theorem version_setter (st : SignalKClient) (n : Nat) :
    (st.server.apiVersions = [] →
        (st.setVersion n).versionLabel = "v" ++ Nat.repr n)
    ∧ (st.server.apiVersions ≠ [] → ("v" ++ Nat.repr n) ∉ st.server.apiVersions →
        (st.setVersion n).versionLabel = st.versionLabel)
    ∧ (st.setVersion n).api.version = n
    ∧ (st.setVersion n).stream.version = n := by
  refine ⟨?_, ?_, rfl, rfl⟩
  · intro h
    simp [SignalKClient.setVersion, h]
  · intro h hmem
    simp [SignalKClient.setVersion, h, hmem]

/-- Witness for C7: requesting version 3 while "v1" is the only advertised
version leaves the selected label unchanged, yet both transports receive 3. -/
theorem version_setter_witness :
    (c2State.setVersion 3).versionLabel = "v2"
    ∧ (c2State.setVersion 3).api.version = 3
    ∧ (c2State.setVersion 3).stream.version = 3 := by
  refine ⟨?_, (version_setter c2State 3).2.2.1, (version_setter c2State 3).2.2.2⟩
  have h := (version_setter c2State 3).2.1 (by decide) (by decide)
  exact h

/-- C2 counterexample: with the selected label "v2" absent from the
endpoints and an endpoint advertised under "v1", the claimed resolution
(fall back to version "1" when the selected label is absent) yields the v1
URL, but the source returns the empty string without consulting "v1". -/
theorem http_resolution_counterexample :
    resolveHttpEndpointSpec c2State = "http://host:3000/signalk/v1/api/"
    ∧ SignalKClient.resolveHttpEndpoint c2State = some ""
    ∧ ("" : String) ≠ "http://host:3000/signalk/v1/api/" := by
  refine ⟨by decide, by decide, by decide⟩

/-- C2 (amended): `resolveHttpEndpoint` returns the selected label's
HTTP URL when the label is present with a non-empty URL; when the label is
present with an empty URL it reads the "v1" entry's URL (throwing — result
`none` — when no "v1" entry exists); and when the selected label is absent
it yields the empty string without consulting "v1". -/
theorem http_resolution_amended (st : SignalKClient) :
    (lookupEndpoint st.server.endpoints st.versionLabel = none →
        st.resolveHttpEndpoint = some "")
    ∧ (∀ ep, lookupEndpoint st.server.endpoints st.versionLabel = some ep →
        ep.signalkHttp ≠ "" → st.resolveHttpEndpoint = some ep.signalkHttp)
    ∧ (∀ ep, lookupEndpoint st.server.endpoints st.versionLabel = some ep →
        ep.signalkHttp = "" →
        st.resolveHttpEndpoint =
          (lookupEndpoint st.server.endpoints "v1").map EndPoint.signalkHttp) := by
  refine ⟨?_, ?_, ?_⟩
  · intro h
    simp [SignalKClient.resolveHttpEndpoint, h]
  · intro ep h hne
    simp [SignalKClient.resolveHttpEndpoint, h, hne]
  · intro ep h he
    cases hv : lookupEndpoint st.server.endpoints "v1" <;>
      simp [SignalKClient.resolveHttpEndpoint, h, he, hv]

/-- Witness for C2 (amended) at the concrete counterexample state. -/
theorem http_resolution_amended_witness :
    SignalKClient.resolveHttpEndpoint c2State = some "" :=
  (http_resolution_amended c2State).1 (by decide)

/-- C8 (bug evaluation): subscribing to a single path with options
containing period 200 and minPeriod 100 produces a subscription entry
whose minPeriod is 200 — the source guards on `options["minPeriod"]` but
copies `options["period"]` — contradicting the specified entry, which
carries minPeriod 100. -/
theorem subscribe_minperiod_bug :
    getField c8Entry "path" = some (JsValue.str "navigation.speedOverGround")
    ∧ getField c8Entry "period" = some (JsValue.num 200)
    ∧ getField c8Entry "minPeriod" = some (JsValue.num 200)
    ∧ getField c8Entry "minPeriod" ≠ some (JsValue.num 100) := by
  refine ⟨rfl, rfl, rfl, ?_⟩
  intro h
  rw [show getField c8Entry "minPeriod" = some (JsValue.num 200) from rfl] at h
  simp at h

end SignalKModel
